import Mathlib

/-!
Shallow embedding of the Flask service in
`CICD Pipeline with GitHub Actions & Docker/app.py`.

The in-memory `data_store` dict becomes the `Store` structure; each route
handler becomes a pure function `Store → Store × Response`.  External inputs
(the current UTC timestamp produced by `datetime.utcnow().isoformat()`, the
`API_KEY` environment variable, request headers, the parsed JSON body) are
passed as explicit parameters.  JSON bodies of the requests in scope are flat
string-to-string objects modelled as association lists; `None` models an
absent or unparsable body.  HTML pages are abstracted to a `Body` constructor
carrying exactly the store data interpolated into the page.
-/

/-- A user record as built by the POST branch of `users` (app.py 964-969). -/
structure User where
  id : Nat
  name : String
  email : String
  created_at : String
  deriving Repr, DecidableEq

/-- A message record as built by the POST branch of `messages` (app.py 1398-1403). -/
structure Message where
  id : Nat
  content : String
  author : String
  created_at : String
  deriving Repr, DecidableEq

/-- The in-memory `data_store` (app.py 23-27). -/
structure Store where
  visits : Nat
  users : List User
  messages : List Message
  deriving Repr, DecidableEq

/-- The initial `data_store`: zero visits, empty collections. -/
def initStore : Store := { visits := 0, users := [], messages := [] }

/-- A parsed JSON object body, restricted to the flat string maps the
handlers read. -/
abbrev Json := List (String × String)

/-- Response payloads: each constructor records the store data a handler
interpolates into its JSON or HTML response. -/
inductive Body where
  | homePage
  | healthSnapshot (timestamp : String)
  | statsSnapshot (total_users total_messages total_visits : Nat) (timestamp : String)
  | usersPage (users : List User)
  | userCreated (message : String) (user : User)
  | userDetailPage (user : User)
  | userNotFoundPage
  | userDeleted (message : String)
  | messagesPage (msgs : List Message)
  | messageCreated (message : String) (m : Message)
  | searchPromptPage
  | searchResultsPage (results : List User)
  | errorMsg (error : String)
  deriving Repr, DecidableEq

/-- An HTTP response: status code plus payload. -/
structure Response where
  status : Nat
  body : Body
  deriving Repr, DecidableEq

/-- Python `s.lower()`: lowercase each character. -/
def pyLower (s : String) : String := ⟨s.data.map Char.toLower⟩

/-- Python `needle in haystack` on strings: substring containment. -/
def pyInStr (needle haystack : String) : Bool := decide (needle.data <:+: haystack.data)

/-- The `log_request` before-request middleware (app.py 30-33): increments
the visit counter for every inbound request before any handler runs. -/
def log_request (st : Store) : Store := { st with visits := st.visits + 1 }

/-- POST branch of the `users` handler (app.py 958-977):
`if not data or 'name' not in data or 'email' not in data` → 400, otherwise
append a record with `id = len(users) + 1` and respond 201. -/
def users_post (data : Option Json) (now : String) (st : Store) : Store × Response :=
  match data with
  | none => (st, ⟨400, Body.errorMsg "Name and email are required"⟩)
  | some d =>
    if d.isEmpty then
      (st, ⟨400, Body.errorMsg "Name and email are required"⟩)
    else
      match d.lookup "name", d.lookup "email" with
      | some nm, some em =>
        let user : User :=
          { id := st.users.length + 1, name := nm, email := em, created_at := now }
        ({ st with users := st.users ++ [user] },
         ⟨201, Body.userCreated "User created successfully" user⟩)
      | _, _ => (st, ⟨400, Body.errorMsg "Name and email are required"⟩)

/-- GET branch of the `users` handler (app.py 755-956): renders the current
user list in insertion order. -/
def users_get (st : Store) : Store × Response :=
  (st, ⟨200, Body.usersPage st.users⟩)

/-- The two methods routed to `user_detail` (app.py 979). -/
inductive DMethod where
  | GET
  | DELETE
  deriving Repr, DecidableEq

/-- The `user_detail` handler (app.py 979-1198): linear scan for the id;
no match → 404 "User Not Found" page (app.py 1055); on GET the detail page;
on DELETE remove every user with that id and respond 200. -/
def user_detail (method : DMethod) (user_id : Nat) (st : Store) : Store × Response :=
  match st.users.find? (fun u => u.id == user_id) with
  | none => (st, ⟨404, Body.userNotFoundPage⟩)
  | some u =>
    match method with
    | DMethod.GET => (st, ⟨200, Body.userDetailPage u⟩)
    | DMethod.DELETE =>
        ({ st with users := st.users.filter (fun v => v.id != user_id) },
         ⟨200, Body.userDeleted "User deleted successfully"⟩)

/-- The `require_api_key` decorator (app.py 58-66): compares the `X-API-Key`
header with `os.environ.get('API_KEY', 'demo-api-key')`; mismatch or absence
→ 401 before the handler runs. -/
def require_api_key (api_key : Option String) (env_api_key : Option String)
    (handler : Store → Store × Response) (st : Store) : Store × Response :=
  let valid_key := env_api_key.getD "demo-api-key"
  if api_key ≠ some valid_key then
    (st, ⟨401, Body.errorMsg "Invalid or missing API key"⟩)
  else
    handler st

/-- GET branch of the `messages` handler (app.py 1204-1390): renders
`reversed(data_store['messages'])`, most recent first. -/
def messages_get (st : Store) : Store × Response :=
  (st, ⟨200, Body.messagesPage st.messages.reverse⟩)

/-- POST branch of the `messages` handler (app.py 1392-1411):
`if not data or 'content' not in data` → 400, otherwise append a record with
`id = len(messages) + 1` and `author = data.get('author', 'Anonymous')`. -/
def messages_post (data : Option Json) (now : String) (st : Store) : Store × Response :=
  match data with
  | none => (st, ⟨400, Body.errorMsg "Content is required"⟩)
  | some d =>
    if d.isEmpty then
      (st, ⟨400, Body.errorMsg "Content is required"⟩)
    else
      match d.lookup "content" with
      | some c =>
        let m : Message :=
          { id := st.messages.length + 1, content := c,
            author := (d.lookup "author").getD "Anonymous", created_at := now }
        ({ st with messages := st.messages ++ [m] },
         ⟨201, Body.messageCreated "Message posted successfully" m⟩)
      | none => (st, ⟨400, Body.errorMsg "Content is required"⟩)

/-- The `search` handler (app.py 1413-1547): lowercases `q` (default `''`),
empty query → prompt page, otherwise filter users whose lowercased name
contains the query as a substring. -/
def search_handler (q : Option String) (st : Store) : Store × Response :=
  let query := pyLower (q.getD "")
  if query = "" then
    (st, ⟨200, Body.searchPromptPage⟩)
  else
    (st, ⟨200, Body.searchResultsPage
      (st.users.filter (fun u => pyInStr query (pyLower u.name)))⟩)

/-- The `health_check` handler (app.py 418-554): read-only status page. -/
def health_check (now : String) (st : Store) : Store × Response :=
  (st, ⟨200, Body.healthSnapshot now⟩)

/-- The `get_stats` handler (app.py 556-750): read-only counts page. -/
def get_stats (now : String) (st : Store) : Store × Response :=
  (st, ⟨200, Body.statsSnapshot st.users.length st.messages.length st.visits now⟩)

/-- One inbound HTTP request, carrying its route, method, parsed body, query
parameter and `X-API-Key` header where the route reads them; `unmatched` is
any request matching no route (404 handler, app.py 48-50). -/
inductive Request where
  | home
  | health
  | stats
  | usersGet
  | usersPost (body : Option Json)
  | userGet (user_id : Nat)
  | userDelete (user_id : Nat)
  | messagesGet (api_key : Option String)
  | messagesPost (api_key : Option String) (body : Option Json)
  | searchReq (q : Option String)
  | unmatched
  deriving Repr, DecidableEq

/-- Route dispatch after the before-request middleware has run. -/
def dispatch (env_api_key : Option String) (now : String) :
    Request → Store → Store × Response
  | Request.home => fun st => (st, ⟨200, Body.homePage⟩)
  | Request.health => health_check now
  | Request.stats => get_stats now
  | Request.usersGet => users_get
  | Request.usersPost body => users_post body now
  | Request.userGet uid => user_detail DMethod.GET uid
  | Request.userDelete uid => user_detail DMethod.DELETE uid
  | Request.messagesGet key => require_api_key key env_api_key messages_get
  | Request.messagesPost key body => require_api_key key env_api_key (messages_post body now)
  | Request.searchReq q => search_handler q
  | Request.unmatched => fun st => (st, ⟨404, Body.errorMsg "Resource not found"⟩)

/-- Full request processing: the `log_request` middleware runs for every
inbound request (Flask runs before-request functions even when routing will
404), then the matched handler. -/
def handleRequest (env_api_key : Option String) (now : String) (req : Request)
    (st : Store) : Store × Response :=
  dispatch env_api_key now req (log_request st)

/-- The externally supplied context of one request: the `API_KEY` environment
value at that moment, the current timestamp, and the request itself. -/
structure ReqCtx where
  env_api_key : Option String
  now : String
  req : Request

/-- Run a sequence of requests, threading the store. -/
def runRequests (steps : List ReqCtx) (st : Store) : Store :=
  steps.foldl (fun s t => (handleRequest t.env_api_key t.now t.req s).1) st

/-- Store states reachable from the fresh store by some request sequence. -/
def Reachable (st : Store) : Prop :=
  ∃ steps : List ReqCtx, runRequests steps initStore = st

/-! ## Shared helper lemmas -/

/-- With the correct key the access filter is transparent. -/
theorem require_api_key_pass (env : Option String) (handler : Store → Store × Response)
    (st : Store) :
    require_api_key (some (env.getD "demo-api-key")) env handler st = handler st := by
  simp [require_api_key]

/-- Lowercasing preserves emptiness of a Python string. -/
theorem pyLower_eq_empty_iff (s : String) : pyLower s = "" ↔ s = "" := by
  constructor
  · intro h
    have hd : s.data.map Char.toLower = [] := congrArg String.data h
    have hnil : s.data = [] := by simpa using hd
    cases s
    simp only at hnil
    rw [hnil]
  · intro h
    subst h
    decide

/-- A successful key lookup forces a nonempty association list. -/
theorem lookup_some_ne_nil {d : Json} {k v : String} (h : d.lookup k = some v) :
    d.isEmpty = false := by
  cases d with
  | nil => simp [List.lookup] at h
  | cons a l => rfl

/-! ## C1 -/

/-- C1 counterexample: on the empty store, DELETE `/api/users/1` (an id that
matches no user) produces the 404 "User Not Found" page, not a 200 deletion
confirmation as the claim states. -/
theorem C1_counterexample :
    (handleRequest none "t0" (Request.userDelete 1) initStore).2 =
      ⟨404, Body.userNotFoundPage⟩ ∧
    ¬ (handleRequest none "t0" (Request.userDelete 1) initStore).2.status = 200 := by
  constructor
  · rfl
  · decide

/-- C1 (amended): a DELETE `/api/users/{id}` request whose id matches no
existing user returns the 404 not-found page and leaves the users collection
unchanged. -/
theorem C1_delete_nonexistent (env : Option String) (now : String) (uid : Nat)
    (st : Store) (h : ∀ u ∈ st.users, u.id ≠ uid) :
    (handleRequest env now (Request.userDelete uid) st).2 =
      ⟨404, Body.userNotFoundPage⟩ ∧
    (handleRequest env now (Request.userDelete uid) st).1.users = st.users := by
  have hf : st.users.find? (fun u => u.id == uid) = none := by
    rw [List.find?_eq_none]
    intro u hu
    simpa using h u hu
  constructor <;> simp [handleRequest, dispatch, user_detail, log_request, hf]

/-- Instance of `C1_delete_nonexistent` on the empty store. -/
theorem C1_witness :
    (handleRequest none "t1" (Request.userDelete 7) initStore).2 =
      ⟨404, Body.userNotFoundPage⟩ ∧
    (handleRequest none "t1" (Request.userDelete 7) initStore).1.users =
      initStore.users :=
  C1_delete_nonexistent none "t1" 7 initStore (by decide)

/-! ## C2 -/

/-- C2: a POST `/api/users` whose body is absent or lacks `name` or `email`
returns 400 and leaves the users collection unchanged; when both keys are
present, exactly one record is appended and 201 returned. -/
theorem C2_users_post_validation (env : Option String) (now : String)
    (body : Option Json) (st : Store) :
    ((body = none ∨ ∃ d, body = some d ∧
        ((d.lookup "name").isNone ∨ (d.lookup "email").isNone)) →
      (handleRequest env now (Request.usersPost body) st).2.status = 400 ∧
      (handleRequest env now (Request.usersPost body) st).1.users = st.users) ∧
    (∀ d nm em, body = some d → d.lookup "name" = some nm →
        d.lookup "email" = some em →
      (handleRequest env now (Request.usersPost body) st).2.status = 201 ∧
      (handleRequest env now (Request.usersPost body) st).1.users =
        st.users ++ [⟨st.users.length + 1, nm, em, now⟩]) := by
  constructor
  · rintro (rfl | ⟨d, rfl, hmiss⟩)
    · constructor <;> simp [handleRequest, dispatch, users_post, log_request]
    · by_cases he : d.isEmpty
      · constructor <;> simp [handleRequest, dispatch, users_post, log_request, he]
      · rcases hmiss with hn | hm
        · rw [Option.isNone_iff_eq_none] at hn
          constructor <;>
            simp [handleRequest, dispatch, users_post, log_request, he, hn]
        · rw [Option.isNone_iff_eq_none] at hm
          cases hcn : d.lookup "name" <;> constructor <;>
            simp [handleRequest, dispatch, users_post, log_request, he, hm, hcn]
  · rintro d nm em rfl hn hm
    have hne : d.isEmpty = false := lookup_some_ne_nil hn
    constructor <;>
      simp [handleRequest, dispatch, users_post, log_request, hne, hn, hm]

/-- Instances of `C2_users_post_validation`: a body missing `email` is
rejected with no mutation; a complete body is appended with 201. -/
theorem C2_witness :
    ((handleRequest none "t2" (Request.usersPost (some [("name", "Alice")]))
        initStore).2.status = 400 ∧
     (handleRequest none "t2" (Request.usersPost (some [("name", "Alice")]))
        initStore).1.users = initStore.users) ∧
    ((handleRequest none "t2"
        (Request.usersPost (some [("name", "Alice"), ("email", "a@x.com")]))
        initStore).2.status = 201 ∧
     (handleRequest none "t2"
        (Request.usersPost (some [("name", "Alice"), ("email", "a@x.com")]))
        initStore).1.users =
       initStore.users ++ [⟨initStore.users.length + 1, "Alice", "a@x.com", "t2"⟩]) :=
  ⟨(C2_users_post_validation none "t2" _ initStore).1
      (Or.inr ⟨_, rfl, Or.inr (by decide)⟩),
   (C2_users_post_validation none "t2" _ initStore).2 _ _ _ rfl (by decide) (by decide)⟩

/-! ## C3 -/

/-- C3: every successful user creation assigns `id = len(users) + 1` and
returns the created record with a 201 status. -/
theorem C3_id_assignment (env : Option String) (now : String) (d : Json)
    (nm em : String) (st : Store)
    (hn : d.lookup "name" = some nm) (hm : d.lookup "email" = some em) :
    (handleRequest env now (Request.usersPost (some d)) st).2 =
      ⟨201, Body.userCreated "User created successfully"
        ⟨st.users.length + 1, nm, em, now⟩⟩ := by
  have hne : d.isEmpty = false := lookup_some_ne_nil hn
  simp [handleRequest, dispatch, users_post, log_request, hne, hn, hm]

/-- Instance of `C3_id_assignment`: on a fresh store the first creation gets
id 1 and the immediately following creation gets id 2. -/
theorem C3_witness :
    (handleRequest none "t3"
        (Request.usersPost (some [("name", "Alice"), ("email", "a@x.com")]))
        initStore).2 =
      ⟨201, Body.userCreated "User created successfully" ⟨1, "Alice", "a@x.com", "t3"⟩⟩ ∧
    (handleRequest none "t4"
        (Request.usersPost (some [("name", "Bob"), ("email", "b@x.com")]))
        (handleRequest none "t3"
          (Request.usersPost (some [("name", "Alice"), ("email", "a@x.com")]))
          initStore).1).2 =
      ⟨201, Body.userCreated "User created successfully" ⟨2, "Bob", "b@x.com", "t4"⟩⟩ :=
  ⟨C3_id_assignment none "t3" _ "Alice" "a@x.com" initStore (by decide) (by decide),
   C3_id_assignment none "t4" _ "Bob" "b@x.com" _ (by decide) (by decide)⟩

/-! ## C9 -/

/-- C9: a POST `/api/users` body with `name` and `email` both present but
empty passes validation: the record is appended and 201 returned — only key
presence is checked, not non-emptiness. -/
theorem C9_empty_strings_accepted (env : Option String) (now : String) (st : Store) :
    (handleRequest env now
        (Request.usersPost (some [("name", ""), ("email", "")])) st).2 =
      ⟨201, Body.userCreated "User created successfully"
        ⟨st.users.length + 1, "", "", now⟩⟩ ∧
    (handleRequest env now
        (Request.usersPost (some [("name", ""), ("email", "")])) st).1.users =
      st.users ++ [⟨st.users.length + 1, "", "", now⟩] := by
  constructor <;> simp [handleRequest, dispatch, users_post, log_request, List.lookup]

/-! ## C4 -/

/-- C4: with a valid key, listing messages renders the stored list in reverse
insertion order; concretely, posting M1 then M2 on a store with no messages
makes the listing present `[M2, M1]`. -/
theorem C4_messages_reverse_order (env : Option String) (now1 now2 now3 : String)
    (key : Option String) (c1 c2 : String) (st : Store)
    (hkey : key = some (env.getD "demo-api-key")) (h0 : st.messages = []) :
    (∀ s : Store, (handleRequest env now3 (Request.messagesGet key) s).2 =
        ⟨200, Body.messagesPage s.messages.reverse⟩) ∧
    (handleRequest env now3 (Request.messagesGet key)
        (handleRequest env now2 (Request.messagesPost key (some [("content", c2)]))
          (handleRequest env now1 (Request.messagesPost key (some [("content", c1)]))
            st).1).1).2 =
      ⟨200, Body.messagesPage
        [⟨2, c2, "Anonymous", now2⟩, ⟨1, c1, "Anonymous", now1⟩]⟩ := by
  subst hkey
  constructor
  · intro s
    simp [handleRequest, dispatch, require_api_key_pass, messages_get, log_request]
  · simp [handleRequest, dispatch, require_api_key_pass, messages_post, messages_get,
      log_request, h0, List.lookup]

/-- Instance of `C4_messages_reverse_order` on the fresh store with the
default key. -/
theorem C4_witness :
    (∀ s : Store,
      (handleRequest none "t43" (Request.messagesGet (some "demo-api-key")) s).2 =
        ⟨200, Body.messagesPage s.messages.reverse⟩) ∧
    (handleRequest none "t43" (Request.messagesGet (some "demo-api-key"))
        (handleRequest none "t42"
          (Request.messagesPost (some "demo-api-key") (some [("content", "M2")]))
          (handleRequest none "t41"
            (Request.messagesPost (some "demo-api-key") (some [("content", "M1")]))
            initStore).1).1).2 =
      ⟨200, Body.messagesPage
        [⟨2, "M2", "Anonymous", "t42"⟩, ⟨1, "M1", "Anonymous", "t41"⟩]⟩ :=
  C4_messages_reverse_order none "t41" "t42" "t43" (some "demo-api-key") "M1" "M2"
    initStore rfl rfl

/-! ## C5 -/

/-- C5: a messages request (GET or POST) whose `X-API-Key` header is absent
or differs from the configured secret is rejected with 401 and the messages
collection is unchanged. -/
theorem C5_api_key_required (env : Option String) (now : String) (key : Option String)
    (body : Option Json) (st : Store) (h : key ≠ some (env.getD "demo-api-key")) :
    ((handleRequest env now (Request.messagesPost key body) st).2 =
        ⟨401, Body.errorMsg "Invalid or missing API key"⟩ ∧
     (handleRequest env now (Request.messagesPost key body) st).1.messages =
        st.messages) ∧
    ((handleRequest env now (Request.messagesGet key) st).2 =
        ⟨401, Body.errorMsg "Invalid or missing API key"⟩ ∧
     (handleRequest env now (Request.messagesGet key) st).1.messages =
        st.messages) := by
  refine ⟨⟨?_, ?_⟩, ⟨?_, ?_⟩⟩ <;>
    simp [handleRequest, dispatch, require_api_key, log_request, h]

/-- Instance of `C5_api_key_required` with a missing header on the fresh
store. -/
theorem C5_witness :
    ((handleRequest none "t5" (Request.messagesPost none (some [("content", "hi")]))
        initStore).2 = ⟨401, Body.errorMsg "Invalid or missing API key"⟩ ∧
     (handleRequest none "t5" (Request.messagesPost none (some [("content", "hi")]))
        initStore).1.messages = initStore.messages) ∧
    ((handleRequest none "t5" (Request.messagesGet none) initStore).2 =
        ⟨401, Body.errorMsg "Invalid or missing API key"⟩ ∧
     (handleRequest none "t5" (Request.messagesGet none) initStore).1.messages =
        initStore.messages) :=
  C5_api_key_required none "t5" none (some [("content", "hi")]) initStore (by decide)

/-! ## C6 -/

/-- C6: a valid-key POST `/api/messages` whose body has `content` stores and
returns a record whose author is `"Anonymous"` when `author` is absent, and
the given value unchanged when present. -/
theorem C6_author_default (env : Option String) (now : String) (d : Json)
    (c : String) (st : Store) (hc : d.lookup "content" = some c) :
    (d.lookup "author" = none →
      (handleRequest env now
          (Request.messagesPost (some (env.getD "demo-api-key")) (some d))
          st).1.messages =
        st.messages ++ [⟨st.messages.length + 1, c, "Anonymous", now⟩] ∧
      (handleRequest env now
          (Request.messagesPost (some (env.getD "demo-api-key")) (some d)) st).2 =
        ⟨201, Body.messageCreated "Message posted successfully"
          ⟨st.messages.length + 1, c, "Anonymous", now⟩⟩) ∧
    (∀ a, d.lookup "author" = some a →
      (handleRequest env now
          (Request.messagesPost (some (env.getD "demo-api-key")) (some d))
          st).1.messages =
        st.messages ++ [⟨st.messages.length + 1, c, a, now⟩] ∧
      (handleRequest env now
          (Request.messagesPost (some (env.getD "demo-api-key")) (some d)) st).2 =
        ⟨201, Body.messageCreated "Message posted successfully"
          ⟨st.messages.length + 1, c, a, now⟩⟩) := by
  have hne : d.isEmpty = false := lookup_some_ne_nil hc
  constructor
  · intro ha
    constructor <;>
      simp [handleRequest, dispatch, require_api_key_pass, messages_post, log_request,
        hne, hc, ha]
  · intro a ha
    constructor <;>
      simp [handleRequest, dispatch, require_api_key_pass, messages_post, log_request,
        hne, hc, ha]

/-- Instances of `C6_author_default`: author absent defaults to
`"Anonymous"`, author present is stored unchanged. -/
theorem C6_witness :
    ((handleRequest none "t6" (Request.messagesPost (some "demo-api-key")
        (some [("content", "hello")])) initStore).1.messages =
      initStore.messages ++
        [⟨initStore.messages.length + 1, "hello", "Anonymous", "t6"⟩] ∧
     (handleRequest none "t6" (Request.messagesPost (some "demo-api-key")
        (some [("content", "hello")])) initStore).2 =
      ⟨201, Body.messageCreated "Message posted successfully"
        ⟨initStore.messages.length + 1, "hello", "Anonymous", "t6"⟩⟩) ∧
    ((handleRequest none "t6" (Request.messagesPost (some "demo-api-key")
        (some [("content", "hello"), ("author", "Raf")])) initStore).1.messages =
      initStore.messages ++
        [⟨initStore.messages.length + 1, "hello", "Raf", "t6"⟩] ∧
     (handleRequest none "t6" (Request.messagesPost (some "demo-api-key")
        (some [("content", "hello"), ("author", "Raf")])) initStore).2 =
      ⟨201, Body.messageCreated "Message posted successfully"
        ⟨initStore.messages.length + 1, "hello", "Raf", "t6"⟩⟩) :=
  ⟨(C6_author_default none "t6" [("content", "hello")] "hello" initStore
      (by decide)).1 (by decide),
   (C6_author_default none "t6" [("content", "hello"), ("author", "Raf")] "hello"
      initStore (by decide)).2 "Raf" (by decide)⟩

/-! ## C7 -/

/-- C7: a non-empty query returns exactly the users whose lowercased name
contains the lowercased query as a substring, as a filter of the users list
(hence in insertion order, a sublist); an empty or absent query yields the
prompt page with no search performed. -/
theorem C7_search (env : Option String) (now : String) (st : Store) :
    (∀ q : String, q ≠ "" →
      (handleRequest env now (Request.searchReq (some q)) st).2 =
        ⟨200, Body.searchResultsPage
          (st.users.filter (fun u => pyInStr (pyLower q) (pyLower u.name)))⟩ ∧
      List.Sublist
        (st.users.filter (fun u => pyInStr (pyLower q) (pyLower u.name))) st.users ∧
      (∀ u : User,
        u ∈ st.users.filter (fun u => pyInStr (pyLower q) (pyLower u.name)) ↔
          u ∈ st.users ∧ (pyLower q).data <:+: (pyLower u.name).data)) ∧
    (handleRequest env now (Request.searchReq none) st).2 =
      ⟨200, Body.searchPromptPage⟩ ∧
    (handleRequest env now (Request.searchReq (some "")) st).2 =
      ⟨200, Body.searchPromptPage⟩ := by
  have h0 : pyLower "" = "" := by decide
  refine ⟨?_, ?_, ?_⟩
  · intro q hq
    have hq' : ¬ pyLower q = "" := fun hcon => hq ((pyLower_eq_empty_iff q).mp hcon)
    refine ⟨?_, List.filter_sublist st.users, ?_⟩
    · simp [handleRequest, dispatch, search_handler, log_request, hq']
    · intro u
      simp [List.mem_filter, pyInStr]
  · simp [handleRequest, dispatch, search_handler, log_request, h0]
  · simp [handleRequest, dispatch, search_handler, log_request, h0]

/-- Instance of `C7_search`: query `"ali"` against users Alice, alice2, Bob
returns Alice and alice2 in their original relative order. -/
theorem C7_witness :
    (handleRequest none "t7" (Request.searchReq (some "ali"))
        ⟨0, [⟨1, "Alice", "a@x.com", "tu"⟩, ⟨2, "alice2", "a2@x.com", "tu"⟩,
             ⟨3, "Bob", "b@x.com", "tu"⟩], []⟩).2 =
      ⟨200, Body.searchResultsPage
        [⟨1, "Alice", "a@x.com", "tu"⟩, ⟨2, "alice2", "a2@x.com", "tu"⟩]⟩ :=
  ((C7_search none "t7" _).1 "ali" (by decide)).1

/-! ## C8 -/

/-- Unfolding of `runRequests` on a cons. -/
theorem runRequests_cons (t : ReqCtx) (ts : List ReqCtx) (s : Store) :
    runRequests (t :: ts) s =
      runRequests ts (handleRequest t.env_api_key t.now t.req s).1 := rfl

/-- No route handler touches the visit counter; only `log_request` does. -/
theorem dispatch_visits (env : Option String) (now : String) (req : Request)
    (st : Store) : (dispatch env now req st).1.visits = st.visits := by
  cases req with
  | home => rfl
  | health => rfl
  | stats => rfl
  | usersGet => rfl
  | usersPost body =>
    cases body with
    | none => rfl
    | some d =>
      by_cases he : d.isEmpty
      · simp [dispatch, users_post, he]
      · cases hn : d.lookup "name" <;> cases hm : d.lookup "email" <;>
          simp [dispatch, users_post, he, hn, hm]
  | userGet uid =>
    cases hf : st.users.find? (fun u => u.id == uid) <;>
      simp [dispatch, user_detail, hf]
  | userDelete uid =>
    cases hf : st.users.find? (fun u => u.id == uid) <;>
      simp [dispatch, user_detail, hf]
  | messagesGet key =>
    by_cases hk : key = some (env.getD "demo-api-key") <;>
      simp [dispatch, require_api_key, hk, messages_get]
  | messagesPost key body =>
    by_cases hk : key = some (env.getD "demo-api-key")
    · cases body with
      | none => simp [dispatch, require_api_key, hk, messages_post]
      | some d =>
        by_cases he : d.isEmpty
        · simp [dispatch, require_api_key, hk, messages_post, he]
        · cases hc : d.lookup "content" <;>
            simp [dispatch, require_api_key, hk, messages_post, he, hc]
    · simp [dispatch, require_api_key, hk]
  | searchReq q =>
    by_cases hq : pyLower (q.getD "") = "" <;> simp [dispatch, search_handler, hq]
  | unmatched => rfl

/-- C8: every inbound request — any route, any authorization or validation
outcome — increments the visit counter by exactly one; over any request
sequence the counter grows by the number of requests and never decreases. -/
theorem C8_visit_counter (env : Option String) (now : String) (req : Request)
    (st : Store) :
    (handleRequest env now req st).1.visits = st.visits + 1 ∧
    (∀ steps : List ReqCtx, ∀ s : Store,
      (runRequests steps s).visits = s.visits + steps.length) ∧
    (∀ steps : List ReqCtx, ∀ s : Store,
      s.visits ≤ (runRequests steps s).visits) := by
  have hone : ∀ (e : Option String) (n : String) (r : Request) (s : Store),
      (handleRequest e n r s).1.visits = s.visits + 1 := by
    intro e n r s
    have h := dispatch_visits e n r (log_request s)
    simpa [handleRequest, log_request] using h
  have hlen : ∀ steps : List ReqCtx, ∀ s : Store,
      (runRequests steps s).visits = s.visits + steps.length := by
    intro steps
    induction steps with
    | nil => intro s; rfl
    | cons t ts ih =>
      intro s
      rw [runRequests_cons, ih, hone, List.length_cons]
      omega
  exact ⟨hone env now req st, hlen, fun steps s => by rw [hlen]; omega⟩

/-! ## C10 -/

/-- `range'` starting at 1 extended by one element on the right. -/
theorem range'_one_snoc (n : Nat) :
    List.range' 1 (n + 1) = List.range' 1 n ++ [n + 1] := by
  simpa [Nat.add_comm] using @List.range'_concat 1 1 n

/-- Each dispatched request leaves the messages list unchanged or appends one
message whose id is the previous length plus one; no request removes one. -/
theorem dispatch_messages_shape (env : Option String) (now : String)
    (req : Request) (st : Store) :
    (dispatch env now req st).1.messages = st.messages ∨
    ∃ m : Message, m.id = st.messages.length + 1 ∧
      (dispatch env now req st).1.messages = st.messages ++ [m] := by
  cases req with
  | home => left; rfl
  | health => left; rfl
  | stats => left; rfl
  | usersGet => left; rfl
  | unmatched => left; rfl
  | usersPost body =>
    left
    cases body with
    | none => rfl
    | some d =>
      by_cases he : d.isEmpty
      · simp [dispatch, users_post, he]
      · cases hn : d.lookup "name" <;> cases hm : d.lookup "email" <;>
          simp [dispatch, users_post, he, hn, hm]
  | userGet uid =>
    left
    cases hf : st.users.find? (fun u => u.id == uid) <;>
      simp [dispatch, user_detail, hf]
  | userDelete uid =>
    left
    cases hf : st.users.find? (fun u => u.id == uid) <;>
      simp [dispatch, user_detail, hf]
  | messagesGet key =>
    left
    by_cases hk : key = some (env.getD "demo-api-key") <;>
      simp [dispatch, require_api_key, hk, messages_get]
  | messagesPost key body =>
    by_cases hk : key = some (env.getD "demo-api-key")
    · cases body with
      | none => left; simp [dispatch, require_api_key, hk, messages_post]
      | some d =>
        by_cases he : d.isEmpty
        · left; simp [dispatch, require_api_key, hk, messages_post, he]
        · cases hc : d.lookup "content" with
          | none => left; simp [dispatch, require_api_key, hk, messages_post, he, hc]
          | some c =>
            right
            refine ⟨⟨st.messages.length + 1, c, (d.lookup "author").getD "Anonymous",
              now⟩, rfl, ?_⟩
            simp [dispatch, require_api_key, hk, messages_post, he, hc]
    · left; simp [dispatch, require_api_key, hk]
  | searchReq q =>
    left
    by_cases hq : pyLower (q.getD "") = "" <;> simp [dispatch, search_handler, hq]

/-- Lifting of `dispatch_messages_shape` through the middleware. -/
theorem handleRequest_messages_shape (env : Option String) (now : String)
    (req : Request) (st : Store) :
    (handleRequest env now req st).1.messages = st.messages ∨
    ∃ m : Message, m.id = st.messages.length + 1 ∧
      (handleRequest env now req st).1.messages = st.messages ++ [m] := by
  have h := dispatch_messages_shape env now req (log_request st)
  simpa [handleRequest, log_request] using h

/-- C10: in every store reachable from the fresh store, message ids are
exactly `1, 2, ..., n` in insertion order, hence all distinct. -/
theorem C10_message_ids (st : Store) (h : Reachable st) :
    st.messages.map Message.id = List.range' 1 st.messages.length ∧
    (st.messages.map Message.id).Nodup := by
  suffices hinv : st.messages.map Message.id = List.range' 1 st.messages.length by
    refine ⟨hinv, ?_⟩
    rw [hinv]
    exact List.nodup_range' 1 st.messages.length
  obtain ⟨steps, hrun⟩ := h
  subst hrun
  have key : ∀ (ts : List ReqCtx) (s : Store),
      s.messages.map Message.id = List.range' 1 s.messages.length →
      (runRequests ts s).messages.map Message.id =
        List.range' 1 (runRequests ts s).messages.length := by
    intro ts
    induction ts with
    | nil => intro s hs; exact hs
    | cons t ts' ih =>
      intro s hs
      rw [runRequests_cons]
      apply ih
      rcases handleRequest_messages_shape t.env_api_key t.now t.req s with
        heq | ⟨m, hid, heq⟩
      · rw [heq]; exact hs
      · rw [heq]
        simp [List.map_append, hs, hid, range'_one_snoc]
  exact key steps initStore rfl

/-- Instance of `C10_message_ids` at the store reached by posting two
messages from the fresh store. -/
theorem C10_witness :
    (runRequests
        [⟨none, "t101", Request.messagesPost (some "demo-api-key")
            (some [("content", "M1")])⟩,
         ⟨none, "t102", Request.messagesPost (some "demo-api-key")
            (some [("content", "M2")])⟩] initStore).messages.map Message.id =
      List.range' 1 (runRequests
        [⟨none, "t101", Request.messagesPost (some "demo-api-key")
            (some [("content", "M1")])⟩,
         ⟨none, "t102", Request.messagesPost (some "demo-api-key")
            (some [("content", "M2")])⟩] initStore).messages.length ∧
    ((runRequests
        [⟨none, "t101", Request.messagesPost (some "demo-api-key")
            (some [("content", "M1")])⟩,
         ⟨none, "t102", Request.messagesPost (some "demo-api-key")
            (some [("content", "M2")])⟩] initStore).messages.map Message.id).Nodup :=
  C10_message_ids _ ⟨_, rfl⟩
